import Mathlib

/-!
Verification of the reverse-mode AD dispatch layer of
`gtsam_unstable/nonlinear/CallRecord.h` and of the adjacent nonlinear
equality-constraint Hessian assembly (`NonlinearConstraint.h` part of the
same source file), via a shallow embedding in Lean 4.

Matrices of doubles are modelled as rectangular lists of rationals (no
floating-point rounding is relevant to any statement below: all claims are
about dispatch, shapes, keys and control flow).  Compile-time Eigen size
parameters (`Rows`, `Cols`, `Eigen::Dynamic`) are modelled by the `Dim`
type; `Eigen::Dynamic` is the C++ integer `-1`.
-/

namespace GtsamSpec

/-- A compile-time Eigen dimension: a static extent or `Eigen::Dynamic`. -/
inductive Dim where
  | static (n : Nat) : Dim
  | dynamic : Dim
deriving DecidableEq, Repr

/-- A runtime dense matrix of rationals (model of a dense matrix of doubles):
row count, column count and the entries row by row. -/
structure Mat where
  rows : Nat
  cols : Nat
  entries : List (List ℚ)
deriving DecidableEq, Repr

/-- Modelled from the spec: the Accumulator (`JacobianMap`, only
forward-declared in the source) is a mapping from variable keys to
accumulated contribution blocks. -/
abbrev JacobianMap := List (Nat × Mat)

/-- `MaxVirtualStaticRows` from CallRecord.h line 37: how many separate
virtual `_reverseAD` overloads with specific static rows the `CallRecord`
interface has.  It is a C++ `int`. -/
def MaxVirtualStaticRows : Int := 4

/-- The compile-time row count of a `Dim` as the C++ integer Eigen uses:
a static extent is its value, `Eigen::Dynamic` is `-1`. -/
def rowsAtCompileTimeInt : Dim → Int
  | Dim.static n => (n : Int)
  | Dim.dynamic => -1

/-- The compile-time condition `(Rows > MaxVirtualStaticRows)` evaluated in
`CallRecord::reverseAD` (CallRecord.h line 114). -/
def rowsExceedMax (d : Dim) : Bool :=
  rowsAtCompileTimeInt d > MaxVirtualStaticRows

/-- A dense Eigen block together with its compile-time row and column
specification. -/
structure Block where
  rowsAtCT : Dim
  colsAtCT : Dim
  mat : Mat
deriving DecidableEq, Repr

/-- `internal::ConvertToDynamicRowsIf` (CallRecord.h lines 46-62): when the
flag is `true` the primary template returns a matrix with dynamic rows, the
same compile-time column count (`Derived::ColsAtCompileTime`) and the same
values; the `false` specialization passes the very same block through. -/
def ConvertToDynamicRowsIf (convertToDynamicRows : Bool) (b : Block) : Block :=
  if convertToDynamicRows then
    { rowsAtCT := Dim.dynamic, colsAtCT := b.colsAtCT, mat := b.mat }
  else
    b

/-- Identifier of one `_reverseAD` virtual entry point of
`internal::ReverseADInterface` (CallRecord.h lines 69-85): one per static
row count, one with dynamic rows at the fixed column width, and one taking
the fully dynamic `Matrix`. -/
inductive EntryPoint where
  | staticRows (r : Nat) : EntryPoint
  | dynamicRows : EntryPoint
  | fullyDynamic : EntryPoint
deriving DecidableEq, Repr

/-- The parameter type `(rows, cols)` at compile time of each `_reverseAD`
overload declared by `ReverseADInterface<_, Cols>` (CallRecord.h lines
73-74, 80-81, 83): `Eigen::Matrix<double, r, Cols>`,
`Eigen::Matrix<double, Eigen::Dynamic, Cols>`, and the fully dynamic
`Matrix` (= `Eigen::Matrix<double, Eigen::Dynamic, Eigen::Dynamic>`). -/
def entrySignature (Cols : Nat) : EntryPoint → Dim × Dim
  | EntryPoint.staticRows r => (Dim.static r, Dim.static Cols)
  | EntryPoint.dynamicRows => (Dim.dynamic, Dim.static Cols)
  | EntryPoint.fullyDynamic => (Dim.dynamic, Dim.dynamic)

/-- The list of `_reverseAD` entry points declared by
`ReverseADInterface<n, Cols>` (CallRecord.h lines 69-85): level `n + 1`
adds the pure virtual overload with static rows `n + 1` on top of level
`n`, whose overloads it re-exposes with a using-declaration; level `0`
declares the dynamic-rows overload and the fully dynamic overload. -/
def interfaceEntryPoints : Nat → List EntryPoint
  | 0 => [EntryPoint.dynamicRows, EntryPoint.fullyDynamic]
  | n + 1 => EntryPoint.staticRows (n + 1) :: interfaceEntryPoints n

/-- C++ overload resolution among the `_reverseAD` overloads visible in
`CallRecord<Cols>` for an argument block with the given compile-time sizes:
the exact-match overload when one exists (static rows `1..4` at column
width `Cols`, dynamic rows at column width `Cols`, or the fully dynamic
`Matrix`), and no viable unique overload otherwise. -/
def overloadSelect (Cols : Nat) (b : Block) : Option EntryPoint :=
  match b.rowsAtCT, b.colsAtCT with
  | Dim.static r, Dim.static c =>
    if c = Cols ∧ 1 ≤ r ∧ r ≤ MaxVirtualStaticRows.toNat then
      some (EntryPoint.staticRows r)
    else
      none
  | Dim.dynamic, Dim.static c =>
    if c = Cols then some EntryPoint.dynamicRows else none
  | Dim.dynamic, Dim.dynamic => some EntryPoint.fullyDynamic
  | Dim.static _, Dim.dynamic => none

/-- The argument block that `CallRecord<Cols>::reverseAD<Rows>`
(CallRecord.h lines 110-116) hands to `_reverseAD`: the input block — whose
compile-time type is `Eigen::Matrix<double, Rows, Cols>` — after
`internal::ConvertToDynamicRowsIf<(Rows > MaxVirtualStaticRows)>::convert`. -/
def reverseADArgument (Cols : Nat) (Rows : Dim) (dFdT : Mat) : Block :=
  ConvertToDynamicRowsIf (rowsExceedMax Rows)
    { rowsAtCT := Rows, colsAtCT := Dim.static Cols, mat := dFdT }

/-- The handler table built by `internal::ReverseADImplementor<Derived, n,
Cols>` (CallRecord.h lines 136-167): level `n + 1` overrides the
static-rows-`(n + 1)` entry point with a call of the derived node type's
single row-count-generic routine `reverseAD`; level `0` overrides both the
dynamic-rows entry point and the fully dynamic entry point with a call of
that same routine. -/
def implementorHandlers (f : Mat → JacobianMap → JacobianMap) :
    Nat → List (EntryPoint × (Mat → JacobianMap → JacobianMap))
  | 0 =>
    [(EntryPoint.dynamicRows, fun m jac => f m jac),
     (EntryPoint.fullyDynamic, fun m jac => f m jac)]
  | n + 1 =>
    (EntryPoint.staticRows (n + 1), fun m jac => f m jac)
      :: implementorHandlers f n

/-- Look up the handler a table assigns to an entry point. -/
def lookupHandler (e : EntryPoint) :
    List (EntryPoint × (Mat → JacobianMap → JacobianMap)) →
      Option (Mat → JacobianMap → JacobianMap)
  | [] => none
  | (e2, h) :: rest => if e2 = e then some h else lookupHandler e rest

/-- One full invocation of `CallRecord<Cols>::reverseAD<Rows>` on a node
whose `ReverseADImplementor` chain forwards every entry point to the single
row-count-generic routine `f`: convert the block, resolve the virtual
overload, and run the handler the implementor chain installed for it.
`none` models a call that does not compile (no viable unique overload). -/
def reverseADInvoke (Cols : Nat) (f : Mat → JacobianMap → JacobianMap)
    (Rows : Dim) (dFdT : Mat) (jac : JacobianMap) : Option JacobianMap :=
  let b := reverseADArgument Cols Rows dFdT
  match overloadSelect Cols b with
  | some e =>
    (lookupHandler e (implementorHandlers f MaxVirtualStaticRows.toNat)).map
      (fun h => h b.mat jac)
  | none => none

/-- A `CallRecord`-derived Recorder (CallRecord.h lines 98-128 together with
`internal::CallRecordImplementor`, lines 173-186): it carries the node's
describe operation, its seed-backward operation and its single
row-count-generic `reverseAD` routine, to which every virtual entry point
is wired. -/
structure Recorder where
  printFn : String → String
  startReverseADFn : JacobianMap → JacobianMap
  reverseADGeneric : Mat → JacobianMap → JacobianMap

/-- `CallRecord::print` (CallRecord.h lines 102-104) in explicit
state-passing form: a `const` member function, so the Recorder after the
call is returned alongside the produced output. -/
def Recorder.printC (self : Recorder) (indent : String) : Recorder × String :=
  (self, self.printFn indent)

/-- `CallRecord::startReverseAD` (CallRecord.h lines 106-108) in explicit
state-passing form: a `const` member function taking the accumulator by
reference, so the call returns the Recorder after the call together with
the updated accumulator. -/
def Recorder.startReverseADC (self : Recorder) (jac : JacobianMap) :
    Recorder × JacobianMap :=
  (self, self.startReverseADFn jac)

/-- `CallRecord::reverseAD<Rows>` (CallRecord.h lines 110-116) in explicit
state-passing form: a `const` member function, so the call returns the
Recorder after the call together with the dispatch result. -/
def Recorder.reverseADC (self : Recorder) (Cols : Nat) (Rows : Dim)
    (dFdT : Mat) (jac : JacobianMap) : Recorder × Option JacobianMap :=
  (self, reverseADInvoke Cols self.reverseADGeneric Rows dFdT jac)

/-! ## Nonlinear equality constraints (NonlinearConstraint.h part) -/

/-- A vector of doubles, modelled as a list of rationals. -/
abbrev Vec := List ℚ

/-- `zeros(r, c)`: the r-by-c zero matrix. -/
def zerosMat (r c : Nat) : Mat :=
  { rows := r, cols := c, entries := List.replicate r (List.replicate c 0) }

/-- Scalar multiple of a matrix. -/
def smulMat (a : ℚ) (m : Mat) : Mat :=
  { rows := m.rows, cols := m.cols,
    entries := m.entries.map (fun row => row.map (fun x => a * x)) }

/-- Entrywise sum of two matrices (`operator+=` on equally sized dense
matrices). -/
def addMat (m n : Mat) : Mat :=
  { rows := m.rows, cols := m.cols,
    entries := List.zipWith (List.zipWith (fun a b => a + b)) m.entries n.entries }

/-- The accumulation loop of `multipliedHessian`: starting from
`zeros(G[0].rows(), G[0].cols())`, add `-lambda[i] * G[i]` for
`i = 0, ..., lambda.rows() - 1`. -/
def lambdaScaledSum (lambda : Vec) (G : List Mat) : Mat :=
  (List.range lambda.length).foldl
    (fun acc i => addMat acc (smulMat (-(lambda.getD i 0)) (G.getD i (zerosMat 0 0))))
    (zerosMat (G.getD 0 (zerosMat 0 0)).rows (G.getD 0 (zerosMat 0 0)).cols)

/-- The arguments handed to the `HessianFactor` constructor (the factor
class itself lives outside this source): the keys, the upper-triangular
information blocks, the linear vectors, and the constant term, in
constructor order. -/
structure HessianFactorData where
  keys : List Nat
  Gs : List Mat
  gs : List Vec
  f : ℚ
deriving DecidableEq, Repr

/-- Outcome of a `multipliedHessian` call: the empty shared pointer, a
thrown `std::runtime_error`, or a constructed `HessianFactor`. -/
inductive MHResult where
  | nullPtr : MHResult
  | thrown : MHResult
  | factor (hf : HessianFactorData) : MHResult
deriving DecidableEq, Repr

/-- The keys of the returned factor, when one is returned. -/
def factorKeys : MHResult → Option (List Nat)
  | MHResult.factor hf => some hf.keys
  | _ => none

/-- The base class `NonlinearEqualityConstraint` (NonlinearConstraint.h):
the dual key and the `active_` flag. -/
structure NonlinearEqualityConstraint where
  dualKey_ : Nat
  active_ : Bool
deriving DecidableEq, Repr

/-- `NonlinearEqualityConstraint::isActive_` (source lines 226-228): returns
`true` unconditionally — equality constraints are always active; the
`active_` member is never read. -/
def NonlinearEqualityConstraint.isActive_ (_self : NonlinearEqualityConstraint) :
    Bool :=
  true

/-- `NonlinearEqualityConstraint::setActive_` (source lines 230-232):
assigns the argument to the `active_` member. -/
def NonlinearEqualityConstraint.setActive_ (self : NonlinearEqualityConstraint)
    (active : Bool) : NonlinearEqualityConstraint :=
  { self with active_ := active }

/-- A `NonlinearEqualityConstraint1` instance (source lines 256-366) over an
abstract `Values` type `V`: its variable key, its dual key, the
compile-time dimension `X1Dim` of its variable type, the (virtual,
inherited) activity predicate `active(x)`, and its (virtual)
`evaluateHessians`, modelled composed with the retrieval
`x.at<X>(key())` so it consumes the whole `Values`. -/
structure NonlinearEqualityConstraint1 (V : Type) where
  key : Nat
  dualKey : Nat
  x1dim : Nat
  activeF : V → Bool
  hessiansG11 : V → List Mat

/-- `NonlinearEqualityConstraint1::multipliedHessian` (source lines
299-324): return the empty pointer when inactive; fetch `lambda` from the
duals at the dual key; compute the `G11` blocks; throw when
`dim(lambda) != G11.size()`; otherwise build
`HessianFactor(key(), lG11sum, zero(X1Dim), 100.0)`. -/
def multipliedHessian1 {V : Type} (c : NonlinearEqualityConstraint1 V)
    (x : V) (duals : Nat → Vec) : MHResult :=
  if ¬ c.activeF x then MHResult.nullPtr
  else
    let lambda := duals c.dualKey
    let G11 := c.hessiansG11 x
    if lambda.length ≠ G11.length then MHResult.thrown
    else
      MHResult.factor
        { keys := [c.key], Gs := [lambdaScaledSum lambda G11],
          gs := [List.replicate c.x1dim 0], f := 100 }

/-- A `NonlinearEqualityConstraint2` instance (source lines 372-517) over an
abstract `Values` type `V`: its two variable keys, dual key, the
compile-time dimensions `X1Dim`, `X2Dim`, the activity predicate, and the
three block lists produced by its (virtual) `evaluateHessians`. -/
structure NonlinearEqualityConstraint2 (V : Type) where
  key1 : Nat
  key2 : Nat
  dualKey : Nat
  x1dim : Nat
  x2dim : Nat
  activeF : V → Bool
  hessiansG11 : V → List Mat
  hessiansG12 : V → List Mat
  hessiansG22 : V → List Mat

/-- `NonlinearEqualityConstraint2::multipliedHessian` (source lines
419-450): return the empty pointer when inactive; throw when `dim(lambda)`
differs from the size of any of `G11`, `G12`, `G22`; otherwise build
`HessianFactor(key1(), key2(), lG11sum, lG12sum, zero(X1Dim), lG22sum,
zero(X2Dim), 0.0)`. -/
def multipliedHessian2 {V : Type} (c : NonlinearEqualityConstraint2 V)
    (x : V) (duals : Nat → Vec) : MHResult :=
  if ¬ c.activeF x then MHResult.nullPtr
  else
    let lambda := duals c.dualKey
    let G11 := c.hessiansG11 x
    let G12 := c.hessiansG12 x
    let G22 := c.hessiansG22 x
    if lambda.length ≠ G11.length ∨ lambda.length ≠ G12.length
        ∨ lambda.length ≠ G22.length then MHResult.thrown
    else
      MHResult.factor
        { keys := [c.key1, c.key2],
          Gs := [lambdaScaledSum lambda G11, lambdaScaledSum lambda G12,
                 lambdaScaledSum lambda G22],
          gs := [List.replicate c.x1dim 0, List.replicate c.x2dim 0], f := 0 }

/-- A `NonlinearEqualityConstraint3` instance (source lines 523-761) over an
abstract `Values` type `V`: its three variable keys, dual key, the
compile-time dimensions, the activity predicate, and the six block lists
produced by its (virtual) `evaluateHessians`. -/
structure NonlinearEqualityConstraint3 (V : Type) where
  key1 : Nat
  key2 : Nat
  key3 : Nat
  dualKey : Nat
  x1dim : Nat
  x2dim : Nat
  x3dim : Nat
  activeF : V → Bool
  hessiansG11 : V → List Mat
  hessiansG12 : V → List Mat
  hessiansG13 : V → List Mat
  hessiansG22 : V → List Mat
  hessiansG23 : V → List Mat
  hessiansG33 : V → List Mat

/-- `NonlinearEqualityConstraint3::multipliedHessian` (source lines
573-612): return the empty pointer when inactive; throw when `dim(lambda)`
differs from the size of any of the six block lists; otherwise build
`HessianFactor(key2(), key2(), key3(), lG11sum, lG12sum, lG13sum,
zero(X1Dim), lG22sum, lG23sum, zero(X2Dim), lG33sum, zero(X3Dim), 0.0)` —
note that the source passes `key2()` twice and never `key1()` (line 609). -/
def multipliedHessian3 {V : Type} (c : NonlinearEqualityConstraint3 V)
    (x : V) (duals : Nat → Vec) : MHResult :=
  if ¬ c.activeF x then MHResult.nullPtr
  else
    let lambda := duals c.dualKey
    let G11 := c.hessiansG11 x
    let G12 := c.hessiansG12 x
    let G13 := c.hessiansG13 x
    let G22 := c.hessiansG22 x
    let G23 := c.hessiansG23 x
    let G33 := c.hessiansG33 x
    if lambda.length ≠ G11.length ∨ lambda.length ≠ G12.length
        ∨ lambda.length ≠ G13.length ∨ lambda.length ≠ G22.length
        ∨ lambda.length ≠ G23.length ∨ lambda.length ≠ G33.length then
      MHResult.thrown
    else
      MHResult.factor
        { keys := [c.key2, c.key2, c.key3],
          Gs := [lambdaScaledSum lambda G11, lambdaScaledSum lambda G12,
                 lambdaScaledSum lambda G13, lambdaScaledSum lambda G22,
                 lambdaScaledSum lambda G23, lambdaScaledSum lambda G33],
          gs := [List.replicate c.x1dim 0, List.replicate c.x2dim 0,
                 List.replicate c.x3dim 0],
          f := 0 }

/-! ## Helper lemmas -/

/-- `MaxVirtualStaticRows` as a natural number. -/
theorem maxRows_toNat : MaxVirtualStaticRows.toNat = 4 := rfl

/-- The interface at the full depth `MaxVirtualStaticRows`, spelled out. -/
theorem interfaceEntryPoints_at_max :
    interfaceEntryPoints MaxVirtualStaticRows.toNat =
      [EntryPoint.staticRows 4, EntryPoint.staticRows 3, EntryPoint.staticRows 2,
       EntryPoint.staticRows 1, EntryPoint.dynamicRows, EntryPoint.fullyDynamic] :=
  rfl

/-- The implementor chain at the full depth `MaxVirtualStaticRows`, spelled
out: every entry point is wired to the one generic routine `f`. -/
theorem implementorHandlers_at_max (f : Mat → JacobianMap → JacobianMap) :
    implementorHandlers f MaxVirtualStaticRows.toNat =
      [(EntryPoint.staticRows 4, fun m jac => f m jac),
       (EntryPoint.staticRows 3, fun m jac => f m jac),
       (EntryPoint.staticRows 2, fun m jac => f m jac),
       (EntryPoint.staticRows 1, fun m jac => f m jac),
       (EntryPoint.dynamicRows, fun m jac => f m jac),
       (EntryPoint.fullyDynamic, fun m jac => f m jac)] :=
  rfl

/-- A static row count in `1..MaxVirtualStaticRows` is passed through
unconverted and dispatches to its own static entry point, whose implementor
handler runs the generic routine on the unchanged block. -/
theorem reverseADInvoke_static_le (Cols : Nat)
    (f : Mat → JacobianMap → JacobianMap) (r : Nat) (h1 : 1 ≤ r)
    (h4 : r ≤ MaxVirtualStaticRows.toNat) (m : Mat) (jac : JacobianMap) :
    reverseADInvoke Cols f (Dim.static r) m jac = some (f m jac) := by
  have h4n : r ≤ 4 := by rw [maxRows_toNat] at h4; exact h4
  interval_cases r <;>
    simp [reverseADInvoke, reverseADArgument, ConvertToDynamicRowsIf, rowsExceedMax,
      rowsAtCompileTimeInt, MaxVirtualStaticRows, overloadSelect, maxRows_toNat,
      implementorHandlers_at_max, lookupHandler]

/-- A dynamic row count is passed through unconverted (Eigen encodes it as
`-1`, which does not exceed `MaxVirtualStaticRows`) and dispatches to the
dynamic-rows entry point, whose implementor handler runs the generic
routine on the unchanged block. -/
theorem reverseADInvoke_dynamic (Cols : Nat)
    (f : Mat → JacobianMap → JacobianMap) (m : Mat) (jac : JacobianMap) :
    reverseADInvoke Cols f Dim.dynamic m jac = some (f m jac) := by
  simp [reverseADInvoke, reverseADArgument, ConvertToDynamicRowsIf, rowsExceedMax,
    rowsAtCompileTimeInt, MaxVirtualStaticRows, overloadSelect, maxRows_toNat,
    implementorHandlers_at_max, lookupHandler]

/-! ## Example data for witnesses -/

/-- A concrete 3-by-2 block. -/
def exampleMat : Mat :=
  { rows := 3, cols := 2, entries := [[1, 2], [3, 4], [5, 6]] }

/-- A concrete row-count-generic backward routine: prepend the received
block under key 0. -/
def exampleRoutine : Mat → JacobianMap → JacobianMap :=
  fun m jac => (0, m) :: jac

/-! ## Claims -/

/-- Claim C1: for every row count `r` in `1..MaxVirtualStaticRows` (K = 4)
and fixed column width `Cols`, invoking `CallRecord<Cols>::reverseAD` with
an r-row static block versus invoking it with a dynamic-row block holding
the same values produces identical results, because every size-specialized
virtual entry point generated by `ReverseADImplementor` and both dynamic
entry points forward to the same single row-count-generic routine
`reverseAD` of the derived node type: both invocations run that routine
once on the same values. -/
theorem reverseAD_static_dynamic_equivalent (Cols : Nat)
    (f : Mat → JacobianMap → JacobianMap) (r : Nat) (h1 : 1 ≤ r)
    (h4 : r ≤ MaxVirtualStaticRows.toNat) (m : Mat) (jac : JacobianMap) :
    reverseADInvoke Cols f (Dim.static r) m jac
      = reverseADInvoke Cols f Dim.dynamic m jac
    ∧ reverseADInvoke Cols f (Dim.static r) m jac = some (f m jac) := by
  rw [reverseADInvoke_static_le Cols f r h1 h4 m jac,
    reverseADInvoke_dynamic Cols f m jac]
  exact ⟨rfl, rfl⟩

/-- Witness for claim C1 at `Cols = 2`, `r = 3`, a concrete block and an
empty accumulator. -/
theorem reverseAD_static_dynamic_equivalent_witness :
    reverseADInvoke 2 exampleRoutine (Dim.static 3) exampleMat []
      = reverseADInvoke 2 exampleRoutine Dim.dynamic exampleMat []
    ∧ reverseADInvoke 2 exampleRoutine (Dim.static 3) exampleMat []
      = some (exampleRoutine exampleMat []) :=
  reverseAD_static_dynamic_equivalent 2 exampleRoutine 3 (by decide) (by decide)
    exampleMat []

/-- Claim C2: for every compile-time row count, `CallRecord<Cols>::reverseAD`
dispatches to exactly one virtual entry point: the r-specialized entry
point when `1 ≤ r ≤ MaxVirtualStaticRows`, and the dynamic-rows entry
point when `r > MaxVirtualStaticRows` or the row count is dynamic; and for
`r > MaxVirtualStaticRows` the block reaching the dynamic entry point
carries exactly the same values as the input (no truncation). -/
theorem reverseAD_dispatch_routing (Cols : Nat) (m : Mat) :
    (∀ r : Nat, 1 ≤ r → r ≤ MaxVirtualStaticRows.toNat →
        overloadSelect Cols (reverseADArgument Cols (Dim.static r) m)
          = some (EntryPoint.staticRows r)) ∧
    (∀ r : Nat, MaxVirtualStaticRows.toNat < r →
        overloadSelect Cols (reverseADArgument Cols (Dim.static r) m)
            = some EntryPoint.dynamicRows
          ∧ (reverseADArgument Cols (Dim.static r) m).mat = m) ∧
    overloadSelect Cols (reverseADArgument Cols Dim.dynamic m)
      = some EntryPoint.dynamicRows := by
  refine ⟨?_, ?_, ?_⟩
  · intro r h1 h4
    have hb : rowsExceedMax (Dim.static r) = false := by
      rw [maxRows_toNat] at h4
      simp only [rowsExceedMax, rowsAtCompileTimeInt, MaxVirtualStaticRows,
        decide_eq_false_iff_not, not_lt]
      exact_mod_cast h4
    unfold reverseADArgument
    rw [hb]
    simp [ConvertToDynamicRowsIf, overloadSelect, h1, h4]
  · intro r h4
    have hb : rowsExceedMax (Dim.static r) = true := by
      rw [maxRows_toNat] at h4
      simp only [rowsExceedMax, rowsAtCompileTimeInt, MaxVirtualStaticRows,
        decide_eq_true_eq]
      exact_mod_cast h4
    unfold reverseADArgument
    rw [hb]
    simp [ConvertToDynamicRowsIf, overloadSelect]
  · have hb : rowsExceedMax Dim.dynamic = false := rfl
    unfold reverseADArgument
    rw [hb]
    simp [ConvertToDynamicRowsIf, overloadSelect]

/-- Witness for claim C2 at `Cols = 2` and a concrete block, evaluated at
the static row counts 3 (within the bound) and 7 (exceeding it). -/
theorem reverseAD_dispatch_routing_witness :
    overloadSelect 2 (reverseADArgument 2 (Dim.static 3) exampleMat)
      = some (EntryPoint.staticRows 3)
    ∧ (overloadSelect 2 (reverseADArgument 2 (Dim.static 7) exampleMat)
          = some EntryPoint.dynamicRows
        ∧ (reverseADArgument 2 (Dim.static 7) exampleMat).mat = exampleMat)
    ∧ overloadSelect 2 (reverseADArgument 2 Dim.dynamic exampleMat)
      = some EntryPoint.dynamicRows :=
  ⟨(reverseAD_dispatch_routing 2 exampleMat).1 3 (by decide) (by decide),
   (reverseAD_dispatch_routing 2 exampleMat).2.1 7 (by decide),
   (reverseAD_dispatch_routing 2 exampleMat).2.2⟩

/-- Claim C3: `ConvertToDynamicRowsIf`, selected at compile time solely by
whether the static row count exceeds `MaxVirtualStaticRows`, passes the
very same block through when the row count is at most
`MaxVirtualStaticRows` or already dynamic, and otherwise returns a
dynamic-rows block with the same values and the same compile-time column
count as the input. -/
theorem convertToDynamicRowsIf_spec (b : Block) :
    (rowsExceedMax b.rowsAtCT = false ↔
        b.rowsAtCT = Dim.dynamic
        ∨ ∃ r, b.rowsAtCT = Dim.static r ∧ r ≤ MaxVirtualStaticRows.toNat) ∧
    (rowsExceedMax b.rowsAtCT = false →
        ConvertToDynamicRowsIf (rowsExceedMax b.rowsAtCT) b = b) ∧
    (rowsExceedMax b.rowsAtCT = true →
        ConvertToDynamicRowsIf (rowsExceedMax b.rowsAtCT) b
          = { rowsAtCT := Dim.dynamic, colsAtCT := b.colsAtCT, mat := b.mat }) := by
  refine ⟨?_, ?_, ?_⟩
  · cases hd : b.rowsAtCT with
    | static n =>
      simp only [rowsExceedMax, rowsAtCompileTimeInt, MaxVirtualStaticRows,
        maxRows_toNat, decide_eq_false_iff_not, not_lt]
      constructor
      · intro h
        refine Or.inr ⟨n, rfl, ?_⟩
        exact_mod_cast h
      · rintro (h | ⟨r, hr, hle⟩)
        · exact absurd h (by simp)
        · have : n = r := by injection hr
          subst this
          exact_mod_cast hle
    | dynamic => simp [rowsExceedMax, rowsAtCompileTimeInt, MaxVirtualStaticRows]
  · intro h
    rw [h]
    rfl
  · intro h
    rw [h]
    rfl

/-- Witness for claim C3 at two concrete blocks: a 3-row static block (pass
through) and a 7-row static block (converted to dynamic rows, values and
compile-time columns kept). -/
theorem convertToDynamicRowsIf_spec_witness :
    ConvertToDynamicRowsIf
        (rowsExceedMax (Block.mk (Dim.static 3) (Dim.static 2) exampleMat).rowsAtCT)
        (Block.mk (Dim.static 3) (Dim.static 2) exampleMat)
      = Block.mk (Dim.static 3) (Dim.static 2) exampleMat
    ∧ ConvertToDynamicRowsIf
        (rowsExceedMax (Block.mk (Dim.static 7) (Dim.static 2) exampleMat).rowsAtCT)
        (Block.mk (Dim.static 7) (Dim.static 2) exampleMat)
      = Block.mk Dim.dynamic (Dim.static 2) exampleMat :=
  ⟨(convertToDynamicRowsIf_spec (Block.mk (Dim.static 3) (Dim.static 2) exampleMat)).2.1
      (by decide),
   (convertToDynamicRowsIf_spec (Block.mk (Dim.static 7) (Dim.static 2) exampleMat)).2.2
      (by decide)⟩

/-- Claim C4: `ReverseADInterface<MaxVirtualStaticRows, Cols>` declares
exactly one `_reverseAD` entry point per static row count
`1..MaxVirtualStaticRows` plus one dynamic-rows entry point and one fully
dynamic entry point — `MaxVirtualStaticRows + 2` in total, without
duplicates — with each level `n + 1` adding the row-count-`(n + 1)` entry
point on top of level `n` and level `0` as the dynamic base; and since all
entry points are pure virtual, a complete Recorder supplies a handler for
every one of them: the implementor chain covers the whole set. -/
theorem reverseADInterface_entry_points :
    (interfaceEntryPoints MaxVirtualStaticRows.toNat).length
        = MaxVirtualStaticRows.toNat + 2
    ∧ (∀ e, e ∈ interfaceEntryPoints MaxVirtualStaticRows.toNat ↔
        (∃ r, 1 ≤ r ∧ r ≤ MaxVirtualStaticRows.toNat ∧ e = EntryPoint.staticRows r)
        ∨ e = EntryPoint.dynamicRows ∨ e = EntryPoint.fullyDynamic)
    ∧ (interfaceEntryPoints MaxVirtualStaticRows.toNat).Nodup
    ∧ (∀ n, interfaceEntryPoints (n + 1)
        = EntryPoint.staticRows (n + 1) :: interfaceEntryPoints n)
    ∧ (∀ f : Mat → JacobianMap → JacobianMap,
        ∀ e ∈ interfaceEntryPoints MaxVirtualStaticRows.toNat,
          (lookupHandler e (implementorHandlers f MaxVirtualStaticRows.toNat)).isSome
            = true) := by
  refine ⟨rfl, ?_, by decide, fun n => rfl, ?_⟩
  · intro e
    rw [interfaceEntryPoints_at_max]
    cases e with
    | staticRows r =>
      simp only [List.mem_cons, List.not_mem_nil, or_false, false_or,
        EntryPoint.staticRows.injEq, maxRows_toNat, reduceCtorEq]
      constructor
      · rintro (h | h | h | h) <;> exact ⟨r, by omega, by omega, rfl⟩
      · rintro ⟨r2, h1, h4, hr⟩
        omega
    | dynamicRows => simp
    | fullyDynamic => simp
  · intro f e he
    rw [interfaceEntryPoints_at_max] at he
    rw [implementorHandlers_at_max]
    fin_cases he <;> rfl

/-- Witness for claim C4: the row-count-2 entry point is declared, and the
implementor chain installs a handler for it. -/
theorem reverseADInterface_entry_points_witness :
    (EntryPoint.staticRows 2 ∈ interfaceEntryPoints MaxVirtualStaticRows.toNat
      ↔ (∃ r, 1 ≤ r ∧ r ≤ MaxVirtualStaticRows.toNat
            ∧ EntryPoint.staticRows 2 = EntryPoint.staticRows r)
        ∨ EntryPoint.staticRows 2 = EntryPoint.dynamicRows
        ∨ EntryPoint.staticRows 2 = EntryPoint.fullyDynamic)
    ∧ (lookupHandler (EntryPoint.staticRows 2)
          (implementorHandlers exampleRoutine MaxVirtualStaticRows.toNat)).isSome
        = true :=
  ⟨reverseADInterface_entry_points.2.1 (EntryPoint.staticRows 2),
   reverseADInterface_entry_points.2.2.2.2 exampleRoutine (EntryPoint.staticRows 2)
     (by decide)⟩

/-- Claim C5 counterexample: it is not the case that every entry point of
`CallRecord<3>` takes a block whose compile-time column width is the fixed
`Cols = 3`: the fully dynamic entry point takes the fully dynamic `Matrix`,
whose compile-time column count is `Eigen::Dynamic`. -/
theorem entrySignature_fixed_cols_counterexample :
    ¬ ∀ e ∈ interfaceEntryPoints MaxVirtualStaticRows.toNat,
        (entrySignature 3 e).2 = Dim.static 3 := by
  intro h
  exact absurd (h EntryPoint.fullyDynamic (by decide)) (by decide)

/-- Claim C5 (amended): every static-rows and dynamic-rows entry point of
`CallRecord<Cols>` takes a block of the fixed compile-time column width
`Cols`, and over those entry points only the row count varies, over
`1..MaxVirtualStaticRows` and dynamic; the remaining fully dynamic entry
point takes the fully dynamic `Matrix`, dynamic in both dimensions. -/
theorem entrySignature_fixed_cols_amended (Cols : Nat) :
    (∀ e ∈ interfaceEntryPoints MaxVirtualStaticRows.toNat,
        e ≠ EntryPoint.fullyDynamic → (entrySignature Cols e).2 = Dim.static Cols)
    ∧ entrySignature Cols EntryPoint.fullyDynamic = (Dim.dynamic, Dim.dynamic)
    ∧ (∀ r, (entrySignature Cols (EntryPoint.staticRows r)).1 = Dim.static r)
    ∧ (entrySignature Cols EntryPoint.dynamicRows).1 = Dim.dynamic := by
  refine ⟨?_, rfl, fun r => rfl, rfl⟩
  intro e he hne
  rw [interfaceEntryPoints_at_max] at he
  fin_cases he <;> first | rfl | exact absurd rfl hne

/-- Witness for claim C5 (amended) at `Cols = 3` and the dynamic-rows entry
point. -/
theorem entrySignature_fixed_cols_amended_witness :
    (entrySignature 3 EntryPoint.dynamicRows).2 = Dim.static 3 :=
  (entrySignature_fixed_cols_amended 3).1 EntryPoint.dynamicRows (by decide)
    (by decide)

/-- Claim C6: for every Recorder and every invocation of `print`,
`startReverseAD` or `reverseAD` — all `const` member functions — the
Recorder after the call is the Recorder before the call: the only state
these operations may update is the shared accumulator passed in by
reference (threaded through the second component). -/
theorem recorder_operations_preserve_recorder (self : Recorder) (indent : String)
    (Cols : Nat) (Rows : Dim) (m : Mat) (jac : JacobianMap) :
    (self.printC indent).1 = self
    ∧ (self.startReverseADC jac).1 = self
    ∧ (self.reverseADC Cols Rows m jac).1 = self :=
  ⟨rfl, rfl, rfl⟩

/-- A concrete active 1-variable equality constraint over trivial `Values`:
key 5, dual key 0, one-dimensional variable, one Hessian block per dual
component. -/
def exampleC1 : NonlinearEqualityConstraint1 Unit :=
  { key := 5, dualKey := 0, x1dim := 1,
    activeF := fun _ => true,
    hessiansG11 := fun _ => [zerosMat 1 1] }

/-- A concrete active 2-variable equality constraint over trivial `Values`. -/
def exampleC2 : NonlinearEqualityConstraint2 Unit :=
  { key1 := 1, key2 := 2, dualKey := 0, x1dim := 1, x2dim := 1,
    activeF := fun _ => true,
    hessiansG11 := fun _ => [zerosMat 1 1],
    hessiansG12 := fun _ => [zerosMat 1 1],
    hessiansG22 := fun _ => [zerosMat 1 1] }

/-- A concrete active 3-variable equality constraint over trivial `Values`:
keys 1, 2 and 3. -/
def exampleC3 : NonlinearEqualityConstraint3 Unit :=
  { key1 := 1, key2 := 2, key3 := 3, dualKey := 0,
    x1dim := 1, x2dim := 1, x3dim := 1,
    activeF := fun _ => true,
    hessiansG11 := fun _ => [zerosMat 1 1],
    hessiansG12 := fun _ => [zerosMat 1 1],
    hessiansG13 := fun _ => [zerosMat 1 1],
    hessiansG22 := fun _ => [zerosMat 1 1],
    hessiansG23 := fun _ => [zerosMat 1 1],
    hessiansG33 := fun _ => [zerosMat 1 1] }

/-- Concrete duals: a one-dimensional dual vector at every key. -/
def exampleDuals : Nat → Vec := fun _ => [1]

/-- Concrete duals whose vector at key 0 has two components, mismatching
the single Hessian block of the example constraints. -/
def exampleDualsMismatched : Nat → Vec := fun _ => [1, 2]

/-- An `ite` producing `thrown` on the positive branch and a factor on the
negative branch equals `thrown` exactly when the condition holds. -/
theorem ite_thrown_iff (P : Prop) [Decidable P] (hf : HessianFactorData) :
    ((if P then MHResult.thrown else MHResult.factor hf) = MHResult.thrown) ↔ P := by
  by_cases h : P <;> simp [h]

/-- Evaluation of `multipliedHessian1` on an active constraint. -/
theorem multipliedHessian1_active_eq {V : Type}
    (c1 : NonlinearEqualityConstraint1 V) (x : V) (duals : Nat → Vec)
    (h1 : c1.activeF x = true) :
    multipliedHessian1 c1 x duals =
      if (duals c1.dualKey).length ≠ (c1.hessiansG11 x).length then MHResult.thrown
      else
        MHResult.factor
          { keys := [c1.key],
            Gs := [lambdaScaledSum (duals c1.dualKey) (c1.hessiansG11 x)],
            gs := [List.replicate c1.x1dim 0], f := 100 } := by
  simp [multipliedHessian1, h1]

/-- Evaluation of `multipliedHessian2` on an active constraint. -/
theorem multipliedHessian2_active_eq {V : Type}
    (c2 : NonlinearEqualityConstraint2 V) (x : V) (duals : Nat → Vec)
    (h2 : c2.activeF x = true) :
    multipliedHessian2 c2 x duals =
      if (duals c2.dualKey).length ≠ (c2.hessiansG11 x).length
          ∨ (duals c2.dualKey).length ≠ (c2.hessiansG12 x).length
          ∨ (duals c2.dualKey).length ≠ (c2.hessiansG22 x).length then
        MHResult.thrown
      else
        MHResult.factor
          { keys := [c2.key1, c2.key2],
            Gs := [lambdaScaledSum (duals c2.dualKey) (c2.hessiansG11 x),
                   lambdaScaledSum (duals c2.dualKey) (c2.hessiansG12 x),
                   lambdaScaledSum (duals c2.dualKey) (c2.hessiansG22 x)],
            gs := [List.replicate c2.x1dim 0, List.replicate c2.x2dim 0],
            f := 0 } := by
  simp [multipliedHessian2, h2]

/-- Evaluation of `multipliedHessian3` on an active constraint. -/
theorem multipliedHessian3_active_eq {V : Type}
    (c3 : NonlinearEqualityConstraint3 V) (x : V) (duals : Nat → Vec)
    (h3 : c3.activeF x = true) :
    multipliedHessian3 c3 x duals =
      if (duals c3.dualKey).length ≠ (c3.hessiansG11 x).length
          ∨ (duals c3.dualKey).length ≠ (c3.hessiansG12 x).length
          ∨ (duals c3.dualKey).length ≠ (c3.hessiansG13 x).length
          ∨ (duals c3.dualKey).length ≠ (c3.hessiansG22 x).length
          ∨ (duals c3.dualKey).length ≠ (c3.hessiansG23 x).length
          ∨ (duals c3.dualKey).length ≠ (c3.hessiansG33 x).length then
        MHResult.thrown
      else
        MHResult.factor
          { keys := [c3.key2, c3.key2, c3.key3],
            Gs := [lambdaScaledSum (duals c3.dualKey) (c3.hessiansG11 x),
                   lambdaScaledSum (duals c3.dualKey) (c3.hessiansG12 x),
                   lambdaScaledSum (duals c3.dualKey) (c3.hessiansG13 x),
                   lambdaScaledSum (duals c3.dualKey) (c3.hessiansG22 x),
                   lambdaScaledSum (duals c3.dualKey) (c3.hessiansG23 x),
                   lambdaScaledSum (duals c3.dualKey) (c3.hessiansG33 x)],
            gs := [List.replicate c3.x1dim 0, List.replicate c3.x2dim 0,
                   List.replicate c3.x3dim 0],
            f := 0 } := by
  simp [multipliedHessian3, h3]

/-- Claim C7: for every active 1-, 2- or 3-variable equality constraint,
`multipliedHessian` throws the fatal runtime error — returning no factor —
if and only if the number of per-component Hessian blocks returned by
`evaluateHessians` in any of the returned block lists differs from the
dimension of the dual vector `lambda` (the constraint's declared
dimensionality); otherwise it returns a `HessianFactor`. -/
theorem multipliedHessian_throws_iff_dim_mismatch {V : Type}
    (c1 : NonlinearEqualityConstraint1 V) (c2 : NonlinearEqualityConstraint2 V)
    (c3 : NonlinearEqualityConstraint3 V) (x : V) (duals : Nat → Vec)
    (h1 : c1.activeF x = true) (h2 : c2.activeF x = true)
    (h3 : c3.activeF x = true) :
    (multipliedHessian1 c1 x duals = MHResult.thrown ↔
        (duals c1.dualKey).length ≠ (c1.hessiansG11 x).length)
    ∧ ((duals c1.dualKey).length = (c1.hessiansG11 x).length →
        ∃ hf, multipliedHessian1 c1 x duals = MHResult.factor hf)
    ∧ (multipliedHessian2 c2 x duals = MHResult.thrown ↔
        ((duals c2.dualKey).length ≠ (c2.hessiansG11 x).length
          ∨ (duals c2.dualKey).length ≠ (c2.hessiansG12 x).length
          ∨ (duals c2.dualKey).length ≠ (c2.hessiansG22 x).length))
    ∧ (((duals c2.dualKey).length = (c2.hessiansG11 x).length
          ∧ (duals c2.dualKey).length = (c2.hessiansG12 x).length
          ∧ (duals c2.dualKey).length = (c2.hessiansG22 x).length) →
        ∃ hf, multipliedHessian2 c2 x duals = MHResult.factor hf)
    ∧ (multipliedHessian3 c3 x duals = MHResult.thrown ↔
        ((duals c3.dualKey).length ≠ (c3.hessiansG11 x).length
          ∨ (duals c3.dualKey).length ≠ (c3.hessiansG12 x).length
          ∨ (duals c3.dualKey).length ≠ (c3.hessiansG13 x).length
          ∨ (duals c3.dualKey).length ≠ (c3.hessiansG22 x).length
          ∨ (duals c3.dualKey).length ≠ (c3.hessiansG23 x).length
          ∨ (duals c3.dualKey).length ≠ (c3.hessiansG33 x).length))
    ∧ (((duals c3.dualKey).length = (c3.hessiansG11 x).length
          ∧ (duals c3.dualKey).length = (c3.hessiansG12 x).length
          ∧ (duals c3.dualKey).length = (c3.hessiansG13 x).length
          ∧ (duals c3.dualKey).length = (c3.hessiansG22 x).length
          ∧ (duals c3.dualKey).length = (c3.hessiansG23 x).length
          ∧ (duals c3.dualKey).length = (c3.hessiansG33 x).length) →
        ∃ hf, multipliedHessian3 c3 x duals = MHResult.factor hf) := by
  refine ⟨?_, ?_, ?_, ?_, ?_, ?_⟩
  · rw [multipliedHessian1_active_eq c1 x duals h1, ite_thrown_iff]
  · intro hlen
    rw [multipliedHessian1_active_eq c1 x duals h1,
      if_neg (fun hP => hP hlen)]
    exact ⟨_, rfl⟩
  · rw [multipliedHessian2_active_eq c2 x duals h2, ite_thrown_iff]
  · rintro ⟨ha, hb, hc⟩
    rw [multipliedHessian2_active_eq c2 x duals h2,
      if_neg (by push_neg; exact ⟨ha, hb, hc⟩)]
    exact ⟨_, rfl⟩
  · rw [multipliedHessian3_active_eq c3 x duals h3, ite_thrown_iff]
  · rintro ⟨ha, hb, hc, hd, he, hg⟩
    rw [multipliedHessian3_active_eq c3 x duals h3,
      if_neg (by push_neg; exact ⟨ha, hb, hc, hd, he, hg⟩)]
    exact ⟨_, rfl⟩

/-- Witness for claim C7: at the example constraints, matched duals yield
no throw and mismatched duals yield a throw. -/
theorem multipliedHessian_throws_iff_dim_mismatch_witness :
    (multipliedHessian1 exampleC1 () exampleDuals = MHResult.thrown ↔
        (exampleDuals exampleC1.dualKey).length ≠ (exampleC1.hessiansG11 ()).length)
    ∧ (multipliedHessian3 exampleC3 () exampleDualsMismatched = MHResult.thrown ↔
        ((exampleDualsMismatched exampleC3.dualKey).length
            ≠ (exampleC3.hessiansG11 ()).length
          ∨ (exampleDualsMismatched exampleC3.dualKey).length
            ≠ (exampleC3.hessiansG12 ()).length
          ∨ (exampleDualsMismatched exampleC3.dualKey).length
            ≠ (exampleC3.hessiansG13 ()).length
          ∨ (exampleDualsMismatched exampleC3.dualKey).length
            ≠ (exampleC3.hessiansG22 ()).length
          ∨ (exampleDualsMismatched exampleC3.dualKey).length
            ≠ (exampleC3.hessiansG23 ()).length
          ∨ (exampleDualsMismatched exampleC3.dualKey).length
            ≠ (exampleC3.hessiansG33 ()).length)) :=
  ⟨(multipliedHessian_throws_iff_dim_mismatch exampleC1 exampleC2 exampleC3 ()
      exampleDuals rfl rfl rfl).1,
   (multipliedHessian_throws_iff_dim_mismatch exampleC1 exampleC2 exampleC3 ()
      exampleDualsMismatched rfl rfl rfl).2.2.2.2.1⟩

/-- Claim C8: evaluating `NonlinearEqualityConstraint3::multipliedHessian`
on an active constraint with keys 1, 2, 3 that passes the dimension check
constructs the `HessianFactor` with keys `(key2, key2, key3) = (2, 2, 3)`,
not `(key1, key2, key3) = (1, 2, 3)`: the source (line 609) passes
`Base::key2()` twice and never `Base::key1()`, although the blocks passed
alongside (`lG11sum`, `zero(X1Dim)` first) belong to the first variable. -/
theorem multipliedHessian3_keys_use_key2_twice :
    factorKeys (multipliedHessian3 exampleC3 () exampleDuals) = some [2, 2, 3]
    ∧ some [2, 2, 3] ≠ some [exampleC3.key1, exampleC3.key2, exampleC3.key3] := by
  constructor
  · rfl
  · decide

/-- Claim C9: for every 1-, 2- or 3-variable equality constraint and every
input, if the constraint is not active at `x` then `multipliedHessian`
returns the empty shared pointer; the Hessians and the dual vector are
never consulted: the result is the same for every `duals` map and every
`evaluateHessians` behaviour, both universally quantified here. -/
theorem multipliedHessian_inactive_returns_null {V : Type}
    (c1 : NonlinearEqualityConstraint1 V) (c2 : NonlinearEqualityConstraint2 V)
    (c3 : NonlinearEqualityConstraint3 V) (x : V) (duals : Nat → Vec)
    (h1 : c1.activeF x = false) (h2 : c2.activeF x = false)
    (h3 : c3.activeF x = false) :
    multipliedHessian1 c1 x duals = MHResult.nullPtr
    ∧ multipliedHessian2 c2 x duals = MHResult.nullPtr
    ∧ multipliedHessian3 c3 x duals = MHResult.nullPtr := by
  refine ⟨?_, ?_, ?_⟩
  · simp [multipliedHessian1, h1]
  · simp [multipliedHessian2, h2]
  · simp [multipliedHessian3, h3]

/-- Witness for claim C9: the example constraints made inactive return the
empty pointer. -/
theorem multipliedHessian_inactive_returns_null_witness :
    multipliedHessian1 { exampleC1 with activeF := fun _ => false } ()
        exampleDuals = MHResult.nullPtr
    ∧ multipliedHessian2 { exampleC2 with activeF := fun _ => false } ()
        exampleDuals = MHResult.nullPtr
    ∧ multipliedHessian3 { exampleC3 with activeF := fun _ => false } ()
        exampleDuals = MHResult.nullPtr :=
  multipliedHessian_inactive_returns_null
    { exampleC1 with activeF := fun _ => false }
    { exampleC2 with activeF := fun _ => false }
    { exampleC3 with activeF := fun _ => false } () exampleDuals rfl rfl rfl

/-- Claim C10: `NonlinearEqualityConstraint::isActive_` returns `true`
regardless of any prior `setActive_(false)`: the `active_` member written
by `setActive_` never influences the result of `isActive_`. -/
theorem isActive_ignores_setActive (c : NonlinearEqualityConstraint) (a : Bool) :
    (c.setActive_ a).isActive_ = true ∧ c.isActive_ = true :=
  ⟨rfl, rfl⟩

end GtsamSpec
